import Mathlib

/-!
Verification of the health-checker repository (Go) against its
natural-language specification.

The Go source is shallowly embedded below.  Conventions:
* Go `int` counters are modelled as `Nat` (all mutations in the source are
  `+= 1` or `+= d` with `d ≥ 0`, and no claim concerns 64-bit wraparound);
* `time.Duration` (int64 nanoseconds, always non-negative here since it is
  produced by `time.Since`) is modelled as `Nat` nanoseconds;
  `Duration.Milliseconds()` is integer division by 1000000;
* the Go map `map[string]*URLMetrics` is modelled as an association list;
* `sync.RWMutex` operations and `slog` emissions are modelled as events in
  an explicit event trace so lock discipline and logging can be stated;
* `os.Exit(1)` inside `assert.Assert` is modelled as `Except.error`.
-/

namespace HealthCheck

/-- Go struct `URLMetrics` (main.go lines 24-29): the per-endpoint
statistics record.  The `Mutex *sync.RWMutex` field is not data; lock and
unlock operations appear in the event traces below. -/
structure URLMetrics where
  TotalChecks : Nat
  SuccessfulChecks : Nat
  TotalResponseTime : Nat
deriving DecidableEq, Repr

/-- Go struct `Config` (config source, lines 12-17): validated settings. -/
structure Config where
  IntervalSeconds : Int
  TimeoutSeconds : Int
  Urls : List String
deriving DecidableEq, Repr

/-- The `http.Client` built by `NewHealthChecker`: only its `Timeout`
field (nanoseconds) is configured. -/
structure HttpClient where
  Timeout : Int
deriving DecidableEq, Repr

/-- Go struct `HealthChecker` (main.go lines 17-22).  `metrics` is the
`map[string]*URLMetrics`, as an association list. -/
structure HealthChecker where
  httpClient : HttpClient
  config : Config
  metrics : List (String × URLMetrics)
deriving DecidableEq, Repr

/-- `NewHealthChecker` (main.go lines 62-70): client with
`Timeout: c.TimeoutSeconds * time.Second`, and an EMPTY metrics map
(`make(map[string]*URLMetrics)`); entries are only added later by
`createUrlEntry`. -/
def NewHealthChecker (c : Config) : HealthChecker :=
  { httpClient := { Timeout := c.TimeoutSeconds * 1000000000 }
    config := c
    metrics := [] }

/-- Go map lookup `h.metrics[url]`: `none` models the nil pointer a
lookup of an absent key yields for a pointer-valued map. -/
def lookupStore (store : List (String × URLMetrics)) (url : String) :
    Option URLMetrics :=
  match store with
  | [] => none
  | (k, v) :: rest => if k = url then some v else lookupStore rest url

/-- The record literal `createUrlEntry` stores (main.go lines 90-95):
all three counters zero. -/
def newURLMetrics : URLMetrics :=
  { TotalChecks := 0, SuccessfulChecks := 0, TotalResponseTime := 0 }

/-- `createUrlEntry` (main.go lines 89-96): inserts the zero record for
`url` into the metrics map. -/
def createUrlEntry (h : HealthChecker) (url : String) : HealthChecker :=
  { h with metrics := h.metrics ++ [(url, newURLMetrics)] }

/-- Outcome of `h.httpClient.Do(req)` as observed by `checkUrl`:
either an error (`err != nil`; no response obtained — includes genuine
transport faults AND context-cancellation aborts, which the source never
distinguishes), or a response with a status code.  `elapsed` is the
non-negative duration `time.Since(start)` in nanoseconds at the point the
branch computes it. -/
inductive DoResult where
  | doError (elapsed : Nat)
  | doResponse (statusCode : Int) (elapsed : Nat)
deriving DecidableEq, Repr

/-- The environment of one `checkUrl` invocation.  `reqErr` is whether
`http.NewRequestWithContext` returned an error.  `ctxCancelled` is
whether the cancellation signal had fired before or during the call; the
body of `checkUrl` in the source never reads `ctx.Err()` (nor
`errors.Is(err, context.Canceled)`) after building the request, so the
embedding below does not consult this field — which is itself a checked
fact (see claim C4). -/
structure CheckInput where
  reqErr : Bool
  ctxCancelled : Bool
  doRes : DoResult
deriving DecidableEq, Repr

/-- Observable events of one `checkUrl` invocation, in program order:
mutex operations, the request build, the network call, `slog` emissions,
and the function return. -/
inductive Ev where
  | lock
  | unlock
  | buildRequest
  | httpDo
  | logError
  | logInfo
  | ret
deriving DecidableEq, Repr

/-- `checkUrl` (main.go lines 139-180), embedded as a state transformer on
the endpoint's record together with its event trace.  Traced faithfully
from the source:

* line 142 `m.Mutex.Lock()`;
* line 143 `http.NewRequestWithContext`; on error (line 144) it logs and
  RETURNS WITHOUT UNLOCKING (lines 145-146) and without touching any
  counter;
* line 148 `m.TotalChecks += 1` (before the network call);
* line 149 `h.httpClient.Do(req)`; on error (lines 150-158) it logs an
  error line (status "NONE") — regardless of `ctxCancelled` — then
  unlocks and returns;
* lines 161-169: status in [200, 300): `SuccessfulChecks += 1`,
  `TotalResponseTime += responseTime`, `slog.Info`;
* lines 170-178: any other status: `TotalResponseTime += responseTime`,
  `slog.Error`;
* line 179 `m.Mutex.Unlock()`. -/
def checkUrl (m : URLMetrics) (inp : CheckInput) : URLMetrics × List Ev :=
  if inp.reqErr then
    (m, [Ev.lock, Ev.buildRequest, Ev.logError, Ev.ret])
  else
    match inp.doRes with
    | DoResult.doError _elapsed =>
        ({ m with TotalChecks := m.TotalChecks + 1 },
         [Ev.lock, Ev.buildRequest, Ev.httpDo, Ev.logError, Ev.unlock, Ev.ret])
    | DoResult.doResponse status rt =>
        if 200 ≤ status ∧ status < 300 then
          ({ TotalChecks := m.TotalChecks + 1
             SuccessfulChecks := m.SuccessfulChecks + 1
             TotalResponseTime := m.TotalResponseTime + rt },
           [Ev.lock, Ev.buildRequest, Ev.httpDo, Ev.logInfo, Ev.unlock, Ev.ret])
        else
          ({ m with TotalChecks := m.TotalChecks + 1
                    TotalResponseTime := m.TotalResponseTime + rt },
           [Ev.lock, Ev.buildRequest, Ev.httpDo, Ev.logError, Ev.unlock, Ev.ret])

/-- The metrics mutation of one check whose request build succeeded (the
first component of `checkUrl` on a `reqErr = false` input): this is the
Metrics-Store `record` operation of the spec. -/
def recordOutcome (m : URLMetrics) (r : DoResult) : URLMetrics :=
  (checkUrl m { reqErr := false, ctxCancelled := false, doRes := r }).1

/-- Folding a sequence of probe outcomes into a record that starts from
`createUrlEntry`'s zero record. -/
def foldRecord (ms : List DoResult) : URLMetrics :=
  ms.foldl recordOutcome newURLMetrics

example : (checkUrl newURLMetrics
    { reqErr := false, ctxCancelled := false,
      doRes := DoResult.doResponse 200 10000000 }).1
    = { TotalChecks := 1, SuccessfulChecks := 1,
        TotalResponseTime := 10000000 } := by decide

example : (checkUrl newURLMetrics
    { reqErr := true, ctxCancelled := false,
      doRes := DoResult.doError 0 }).2.count Ev.unlock = 0 := by decide

/-- `assert.Assert` (assert package): `os.Exit(1)` with the message when
`truth` is false, modelled as `Except.error`. -/
def Assert (truth : Bool) (msg : String) : Except String Unit :=
  if truth then Except.ok () else Except.error msg

/-- `validateUrl` (config source lines 60-62 and checker.go lines 21-24):
the body is literally `return true`. -/
def validateUrl (_url : String) : Bool :=
  true

/-- `ValidateUrls` (config source lines 46-58): asserts the input list is
non-empty, keeps the urls passing `validateUrl` (the loop appending into
`returnUrls` is a filter), asserts the result is non-empty, returns it. -/
def ValidateUrls (urls : List String) : Except String (List String) := do
  let _ ← Assert (urls.length > 0) "No URLs provided"
  let returnUrls := urls.filter validateUrl
  let _ ← Assert (returnUrls.length > 0) "No valid URLs provided"
  pure returnUrls

/-- `validateConfig` (config source lines 38-44): asserts positive
interval and timeout, revalidates the urls, returns the config.  This is
the ENTIRE startup validation — there is no check against any upper bound
on the number of urls anywhere in the source. -/
def validateConfig (c : Config) : Except String Config := do
  let _ ← Assert (c.IntervalSeconds > 0) "Interval Seconds Must Be Positive"
  let _ ← Assert (c.TimeoutSeconds > 0) "Timeout Seconds Must Be Positive"
  let urls ← ValidateUrls c.Urls
  pure { c with Urls := urls }

/-- A goroutine spawn performed by `Run`'s own goroutine. -/
inductive RunSpawn where
  | spawnReporter
  | spawnChecker (url : String)
deriving DecidableEq, Repr

/-- The spawns `Run` (main.go lines 72-87) performs, in program order:
`wg.Go(func() { h.logMetrics(ctx) })` FIRST (line 74), then one goroutine
per configured url (lines 77-84).  `createUrlEntry(ctx, url)` is executed
INSIDE the spawned per-url goroutine (line 81), i.e. only after both the
reporter and that url's goroutine have been spawned — `Run` itself never
touches `h.metrics` before or between the spawns, so the store at every
spawn instant is still `NewHealthChecker`'s empty map. -/
def runSpawns (c : Config) : List RunSpawn :=
  RunSpawn.spawnReporter :: c.Urls.map RunSpawn.spawnChecker

/-- One line the reporter emits for an endpoint (main.go lines 113-119);
`AvgResponseTimeMs` is `int(m.TotalResponseTime.Milliseconds()) /
m.TotalChecks`, rendered with an "ms" suffix. -/
structure ReportLine where
  URL : String
  TotalChecks : Nat
  SuccessfulChecks : Nat
  AvgResponseTimeMs : Nat
deriving DecidableEq, Repr

/-- One tick of `logMetrics` (main.go lines 105-121): iterate the
configured urls in order; `m := h.metrics[u]` then `m.Mutex.RLock()` —
if the key is absent, `m` is a nil pointer and the `RLock` call faults,
modelled as `none` for the tick; endpoints with `TotalChecks == 0` are
skipped silently; otherwise a line is emitted with average
`int(m.TotalResponseTime.Milliseconds()) / m.TotalChecks`
(milliseconds = nanoseconds / 1000000, then division by `TotalChecks`). -/
def logMetricsTick (urls : List String)
    (store : List (String × URLMetrics)) : Option (List ReportLine) :=
  match urls with
  | [] => some []
  | u :: rest =>
    match lookupStore store u with
    | none => none
    | some m =>
      match logMetricsTick rest store with
      | none => none
      | some lines =>
        if m.TotalChecks = 0 then
          some lines
        else
          some ({ URL := u
                  TotalChecks := m.TotalChecks
                  SuccessfulChecks := m.SuccessfulChecks
                  AvgResponseTimeMs :=
                    m.TotalResponseTime / 1000000 / m.TotalChecks } :: lines)

/-- Spec-side (§3, §8): a probe outcome counts as `healthy response`
exactly when a response was obtained with status in [200, 300). -/
def isHealthyResponse : DoResult → Bool
  | DoResult.doError _ => false
  | DoResult.doResponse s _ => decide (200 ≤ s ∧ s < 300)

/-- Spec-side (§8): the number of `healthy response` measurements in a
sequence. -/
def specHealthyCount (ms : List DoResult) : Nat :=
  (ms.filter isHealthyResponse).length

/-- Spec-side (§8): the sum of elapsed times of the measurements that
obtained a response (healthy or unhealthy), transport failures excluded. -/
def specCreditedLatency : List DoResult → Nat
  | [] => 0
  | DoResult.doError _ :: rs => specCreditedLatency rs
  | DoResult.doResponse _ rt :: rs => rt + specCreditedLatency rs

/-- Spec-side (§4.4, claim C6): the number of checks that contributed
latency, i.e. the checks that obtained a response. -/
def specContributingCount : List DoResult → Nat
  | [] => 0
  | DoResult.doError _ :: rs => specContributingCount rs
  | DoResult.doResponse _ _ :: rs => specContributingCount rs + 1

example : logMetricsTick ["http://a"]
    [("http://a", { TotalChecks := 2, SuccessfulChecks := 1,
                    TotalResponseTime := 10000000 })]
    = some [{ URL := "http://a", TotalChecks := 2, SuccessfulChecks := 1,
              AvgResponseTimeMs := 5 }] := by decide

/-- The latency one probe outcome contributes to `TotalResponseTime` in
`checkUrl`: its elapsed time when a response was obtained, nothing for a
`Do` error. -/
def creditedElapsed : DoResult → Nat
  | DoResult.doError _ => 0
  | DoResult.doResponse _ rt => rt

/-- The trace prefix of one `checkUrl` invocation strictly before the
network call. -/
def eventsBeforeHttpDo (evs : List Ev) : List Ev :=
  evs.takeWhile (fun x => x != Ev.httpDo)

/-- The number of currently-held acquisitions of the record's mutex after
the given events: locks minus unlocks. -/
def locksHeld (evs : List Ev) : Int :=
  (evs.count Ev.lock : Int) - (evs.count Ev.unlock : Int)

theorem recordOutcome_TotalChecks (m : URLMetrics) (r : DoResult) :
    (recordOutcome m r).TotalChecks = m.TotalChecks + 1 := by
  cases r with
  | doError e => rfl
  | doResponse s rt =>
    by_cases h : 200 ≤ s ∧ s < 300 <;> simp [recordOutcome, checkUrl, h]

theorem recordOutcome_SuccessfulChecks (m : URLMetrics) (r : DoResult) :
    (recordOutcome m r).SuccessfulChecks
      = m.SuccessfulChecks + (if isHealthyResponse r then 1 else 0) := by
  cases r with
  | doError e => rfl
  | doResponse s rt =>
    by_cases h : 200 ≤ s ∧ s < 300 <;>
      simp [recordOutcome, checkUrl, isHealthyResponse, h]

theorem recordOutcome_TotalResponseTime (m : URLMetrics) (r : DoResult) :
    (recordOutcome m r).TotalResponseTime
      = m.TotalResponseTime + creditedElapsed r := by
  cases r with
  | doError e => rfl
  | doResponse s rt =>
    by_cases h : 200 ≤ s ∧ s < 300 <;>
      simp [recordOutcome, checkUrl, creditedElapsed, h]

theorem specHealthyCount_cons (r : DoResult) (rs : List DoResult) :
    specHealthyCount (r :: rs)
      = (if isHealthyResponse r then 1 else 0) + specHealthyCount rs := by
  cases hr : isHealthyResponse r <;>
    simp [specHealthyCount, List.filter_cons, hr, Nat.add_comm]

theorem specCreditedLatency_cons (r : DoResult) (rs : List DoResult) :
    specCreditedLatency (r :: rs)
      = creditedElapsed r + specCreditedLatency rs := by
  cases r <;> simp [specCreditedLatency, creditedElapsed]

theorem foldl_record_TotalChecks (ms : List DoResult) (m : URLMetrics) :
    (ms.foldl recordOutcome m).TotalChecks = m.TotalChecks + ms.length := by
  induction ms generalizing m with
  | nil => simp
  | cons r rs ih =>
    rw [List.foldl_cons, ih, recordOutcome_TotalChecks]
    simp
    omega

theorem foldl_record_SuccessfulChecks (ms : List DoResult) (m : URLMetrics) :
    (ms.foldl recordOutcome m).SuccessfulChecks
      = m.SuccessfulChecks + specHealthyCount ms := by
  induction ms generalizing m with
  | nil => simp [specHealthyCount]
  | cons r rs ih =>
    rw [List.foldl_cons, ih, recordOutcome_SuccessfulChecks,
      specHealthyCount_cons]
    omega

theorem foldl_record_TotalResponseTime (ms : List DoResult) (m : URLMetrics) :
    (ms.foldl recordOutcome m).TotalResponseTime
      = m.TotalResponseTime + specCreditedLatency ms := by
  induction ms generalizing m with
  | nil => simp [specCreditedLatency]
  | cons r rs ih =>
    rw [List.foldl_cons, ih, recordOutcome_TotalResponseTime,
      specCreditedLatency_cons]
    omega

theorem recordOutcome_inv (m : URLMetrics) (r : DoResult)
    (hm : m.SuccessfulChecks ≤ m.TotalChecks) :
    (recordOutcome m r).SuccessfulChecks ≤ (recordOutcome m r).TotalChecks := by
  rw [recordOutcome_SuccessfulChecks, recordOutcome_TotalChecks]
  split <;> omega

/-- All record states observable during a sequence of record operations
starting from state `m`: the state before each operation, the in-flight
intermediate state right after line 148's `TotalChecks += 1` (before the
branch on the response), and the state after the operation.  The mutex
makes the in-flight state invisible to the reporter, but it is included
so the invariant is checked at every intermediate write as well. -/
def statesFrom (m : URLMetrics) : List DoResult → List URLMetrics
  | [] => [m]
  | r :: rs =>
    m :: { m with TotalChecks := m.TotalChecks + 1 }
      :: statesFrom (recordOutcome m r) rs

theorem statesFrom_inv (ms : List DoResult) (m : URLMetrics)
    (hm : m.SuccessfulChecks ≤ m.TotalChecks) :
    ∀ s ∈ statesFrom m ms, s.SuccessfulChecks ≤ s.TotalChecks := by
  induction ms generalizing m with
  | nil =>
    intro s hs
    simp [statesFrom] at hs
    subst hs
    exact hm
  | cons r rs ih =>
    intro s hs
    simp only [statesFrom, List.mem_cons] at hs
    rcases hs with rfl | rfl | hs
    · exact hm
    · exact Nat.le_succ_of_le hm
    · exact ih (recordOutcome m r) (recordOutcome_inv m r hm) s hs

/-- A two-endpoint configuration used to exhibit the startup ordering of
`Run`. -/
def cfgTwo : Config :=
  { IntervalSeconds := 30, TimeoutSeconds := 5,
    Urls := ["http://a", "http://b"] }

/-- Claim C1 (REFUTED — the code holds the guard across the network
call): on a run of `checkUrl` that reaches the HTTP request, the mutex
acquired at line 142 is still held when `httpClient.Do` executes at line
149 — the lock balance of the trace prefix before the network call is 1,
so the critical section contains the HTTP request itself. -/
theorem C1_guard_held_across_network_call :
    Ev.httpDo ∈ (checkUrl newURLMetrics
      { reqErr := false, ctxCancelled := false,
        doRes := DoResult.doResponse 200 10000000 }).2 ∧
    locksHeld (eventsBeforeHttpDo (checkUrl newURLMetrics
      { reqErr := false, ctxCancelled := false,
        doRes := DoResult.doResponse 200 10000000 }).2) = 1 := by
  decide

/-- Claim C2 (REFUTED — the request-construction error path leaks the
mutex): when `http.NewRequestWithContext` fails, `checkUrl` locks the
mutex (line 142) and returns (line 146) without ever unlocking: the trace
contains one lock and zero unlocks. -/
theorem C2_mutex_leaked_on_request_error :
    (checkUrl newURLMetrics
      { reqErr := true, ctxCancelled := false,
        doRes := DoResult.doError 0 }).2.count Ev.lock = 1 ∧
    (checkUrl newURLMetrics
      { reqErr := true, ctxCancelled := false,
        doRes := DoResult.doError 0 }).2.count Ev.unlock = 0 := by
  decide

/-- Claim C3 (REFUTED — the Reporter Loop is spawned before the store is
built): `Run`'s first spawn is the reporter (`wg.Go(h.logMetrics)` at
line 74), the metrics map at that instant is the empty map built by
`NewHealthChecker` (records are only created by `createUrlEntry` inside
the per-url goroutines spawned afterwards), and a reporter tick against
that store observes a missing record (nil `*URLMetrics`) for a configured
endpoint. -/
theorem C3_reporter_spawned_before_store_built :
    (runSpawns cfgTwo).head? = some RunSpawn.spawnReporter ∧
    (NewHealthChecker cfgTwo).metrics = [] ∧
    lookupStore (NewHealthChecker cfgTwo).metrics "http://a" = none ∧
    logMetricsTick cfgTwo.Urls (NewHealthChecker cfgTwo).metrics = none := by
  decide

/-- Claim C4 (REFUTED — a cancelled in-flight attempt is not
suppressed): when the cancellation signal fired during the request and
`httpClient.Do` therefore returns an error, `checkUrl` has already
incremented `TotalChecks` (line 148 precedes the call) and emits an
error log line with status "NONE" (lines 152-156); its behaviour is
identical whether or not cancellation fired, because the body never
consults `ctx.Err()`. -/
theorem C4_cancelled_attempt_recorded_and_logged :
    (checkUrl newURLMetrics
      { reqErr := false, ctxCancelled := true,
        doRes := DoResult.doError 5000000 }).1.TotalChecks = 1 ∧
    Ev.logError ∈ (checkUrl newURLMetrics
      { reqErr := false, ctxCancelled := true,
        doRes := DoResult.doError 5000000 }).2 ∧
    checkUrl newURLMetrics
      { reqErr := false, ctxCancelled := true,
        doRes := DoResult.doError 5000000 }
      = checkUrl newURLMetrics
          { reqErr := false, ctxCancelled := false,
            doRes := DoResult.doError 5000000 } := by
  decide

/-- Claim C5: after folding any sequence of N probe outcomes into an
endpoint's record (starting from `createUrlEntry`'s zero record), total
checks equals N, successful checks equals the number of healthy-response
outcomes, and cumulative latency equals the sum of elapsed times of the
outcomes that obtained a response (healthy or unhealthy), transport
failures contributing no latency. -/
theorem C5_record_fold_totals (ms : List DoResult) :
    (foldRecord ms).TotalChecks = ms.length ∧
    (foldRecord ms).SuccessfulChecks = specHealthyCount ms ∧
    (foldRecord ms).TotalResponseTime = specCreditedLatency ms := by
  refine ⟨?_, ?_, ?_⟩ <;>
    simp [foldRecord, foldl_record_TotalChecks, foldl_record_SuccessfulChecks,
      foldl_record_TotalResponseTime, newURLMetrics]

/-- Claim C6 counterexample (the claim as stated is FALSE on the code):
after one transport failure and one healthy response of 10ms, the
reporter divides the 10ms cumulative latency by the TOTAL check count 2
and reports 5ms, whereas the claimed formula — cumulative latency divided
by the number of checks that contributed latency, here 1 — gives 10ms. -/
theorem C6_average_counterexample :
    logMetricsTick ["http://a"]
      [("http://a", foldRecord
        [DoResult.doError 5000000, DoResult.doResponse 200 10000000])]
      = some [{ URL := "http://a", TotalChecks := 2, SuccessfulChecks := 1,
                AvgResponseTimeMs := 5 }] ∧
    (foldRecord [DoResult.doError 5000000,
        DoResult.doResponse 200 10000000]).TotalResponseTime / 1000000
      / specContributingCount [DoResult.doError 5000000,
          DoResult.doResponse 200 10000000] = 10 ∧
    (5 : Nat) ≠ 10 := by
  decide

/-- Claim C6 (amended): on a reporter tick, for an endpoint with a
non-empty recorded history (total checks non-zero), the reported average
latency equals the cumulative latency converted to whole milliseconds and
then integer-divided by the TOTAL check count (all attempts, transport
failures included), expressed in whole milliseconds. -/
theorem C6_average_uses_total_checks (u : String) (ms : List DoResult)
    (h : ms ≠ []) :
    logMetricsTick [u] [(u, foldRecord ms)]
      = some [{ URL := u
                TotalChecks := ms.length
                SuccessfulChecks := specHealthyCount ms
                AvgResponseTimeMs :=
                  specCreditedLatency ms / 1000000 / ms.length }] := by
  have hT : (foldRecord ms).TotalChecks = ms.length := by
    simp [foldRecord, foldl_record_TotalChecks, newURLMetrics]
  have hS : (foldRecord ms).SuccessfulChecks = specHealthyCount ms := by
    simp [foldRecord, foldl_record_SuccessfulChecks, newURLMetrics]
  have hR : (foldRecord ms).TotalResponseTime = specCreditedLatency ms := by
    simp [foldRecord, foldl_record_TotalResponseTime, newURLMetrics]
  have hne : ms.length ≠ 0 := by
    intro h0
    exact h (List.length_eq_zero.mp h0)
  simp [logMetricsTick, lookupStore, hT, hS, hR, hne]

theorem C6_average_uses_total_checks_witness :
    logMetricsTick ["http://a"]
      [("http://a", foldRecord [DoResult.doResponse 200 10000000])]
      = some [{ URL := "http://a"
                TotalChecks := [DoResult.doResponse 200 10000000].length
                SuccessfulChecks :=
                  specHealthyCount [DoResult.doResponse 200 10000000]
                AvgResponseTimeMs :=
                  specCreditedLatency [DoResult.doResponse 200 10000000]
                    / 1000000
                    / [DoResult.doResponse 200 10000000].length }] :=
  C6_average_uses_total_checks "http://a" [DoResult.doResponse 200 10000000]
    (by decide)

/-- Claim C7: at every state observable during any sequence of record
operations against one endpoint — before each operation, at the in-flight
intermediate point where `TotalChecks` has been incremented but the
response branch not yet taken, and after each operation — successful
checks is less than or equal to total checks. -/
theorem C7_success_le_total (ms : List DoResult) (s : URLMetrics)
    (hs : s ∈ statesFrom newURLMetrics ms) :
    s.SuccessfulChecks ≤ s.TotalChecks :=
  statesFrom_inv ms newURLMetrics (Nat.le_refl 0) s hs

theorem C7_success_le_total_witness :
    ({ TotalChecks := 1, SuccessfulChecks := 0, TotalResponseTime := 0 }
        : URLMetrics).SuccessfulChecks
      ≤ ({ TotalChecks := 1, SuccessfulChecks := 0, TotalResponseTime := 0 }
        : URLMetrics).TotalChecks :=
  C7_success_le_total [DoResult.doResponse 200 5]
    { TotalChecks := 1, SuccessfulChecks := 0, TotalResponseTime := 0 }
    (by decide)

/-- Claim C9: for every check that obtains an HTTP response, successful
checks is incremented exactly when the status code is in [200, 300) (any
other received status leaves it unchanged, i.e. the check is classified
unhealthy), and in both cases the elapsed time is credited to cumulative
latency and the total check count is incremented. -/
theorem C9_status_classification (m : URLMetrics) (status : Int) (rt : Nat) :
    ((recordOutcome m (DoResult.doResponse status rt)).SuccessfulChecks
        = m.SuccessfulChecks + 1 ↔ 200 ≤ status ∧ status < 300) ∧
    (recordOutcome m (DoResult.doResponse status rt)).TotalResponseTime
      = m.TotalResponseTime + rt ∧
    (recordOutcome m (DoResult.doResponse status rt)).TotalChecks
      = m.TotalChecks + 1 := by
  refine ⟨?_, recordOutcome_TotalResponseTime m (DoResult.doResponse status rt),
    recordOutcome_TotalChecks m (DoResult.doResponse status rt)⟩
  rw [recordOutcome_SuccessfulChecks]
  by_cases h : 200 ≤ status ∧ status < 300 <;>
    simp [isHealthyResponse, h]

/-- Claim C10: the per-URL validator accepts every string, and therefore
`ValidateUrls` returns every non-empty input list unchanged — no
syntactic URL validation (scheme or host check) is performed. -/
theorem C10_no_url_validation (urls : List String) (h : urls ≠ []) :
    (∀ u : String, validateUrl u = true) ∧
    ValidateUrls urls = Except.ok urls := by
  refine ⟨fun u => rfl, ?_⟩
  have hfilter : urls.filter validateUrl = urls :=
    List.filter_eq_self.mpr (fun a _ => rfl)
  have h0 : 0 < urls.length := List.length_pos.mpr h
  simp [ValidateUrls, Assert, hfilter, h0]
  rfl

theorem C10_no_url_validation_witness :
    (∀ u : String, validateUrl u = true) ∧
    ValidateUrls ["http://a"] = Except.ok ["http://a"] :=
  C10_no_url_validation ["http://a"] (by decide)

/-- Claim C8 (REFUTED — no upper bound on the endpoint count exists in
the code): startup validation ACCEPTS a configuration with 101 endpoints
(or any number) — `validateConfig` and `ValidateUrls` check only that the
interval and timeout are positive and that the list is non-empty, so the
process proceeds to spawn a loop per endpoint instead of exiting
non-zero. -/
theorem C8_no_endpoint_ceiling :
    validateConfig
      { IntervalSeconds := 1, TimeoutSeconds := 1,
        Urls := List.replicate 101 "http://example.com" }
      = Except.ok
          { IntervalSeconds := 1, TimeoutSeconds := 1,
            Urls := List.replicate 101 "http://example.com" } := by
  rfl

end HealthCheck
